import Mathlib

/-!
Verification of the Forge stub backend (`src/server.py`).

The server exposes a single endpoint `POST /execute`.  The handler
`execute_task` validates the request (the `task` field must be non-empty
after trimming), records a start timestamp, builds a fixed list of five
`Step` records, an echoing result payload, a fixed message and status,
records a completion timestamp and returns the assembled response.

Wall-clock reads (`datetime.utcnow()`) are modelled by an explicit clock
stream `clk : Nat → Nat`: the n-th call to the clock during a request
returns `clk n`.  The handler reads the clock twice: `started_at = clk 0`
and `completed_at = clk 1`.
-/

namespace Forge

/-- `Step` from `src/server.py`: one record of the simulated trace. -/
structure Step where
  id : Nat
  action : String
  status : String
  detail : Option String
deriving Repr, DecidableEq

/-- `ExecuteRequest` after pydantic parsing: all defaults applied. -/
structure ExecuteRequest where
  task : String
  model : String
  tools : List String
deriving Repr, DecidableEq

/-- The raw JSON body of `POST /execute` before defaults are applied:
`model` and `tools` are optional (`none` means the field is absent). -/
structure RawExecuteRequest where
  task : String
  model : Option String
  tools : Option (List String)
deriving Repr, DecidableEq

/-- The characters removed by Python's `str.strip()`: exactly those with
`str.isspace() = True`, i.e. U+0009..U+000D, U+001C..U+001F, space,
U+0085, U+00A0, U+1680, U+2000..U+200A, U+2028, U+2029, U+202F, U+205F
and U+3000. -/
def isPyWhitespace (c : Char) : Bool :=
  (9 ≤ c.toNat && c.toNat ≤ 13) ||
    (28 ≤ c.toNat && c.toNat ≤ 31) ||
    c == ' ' || c == Char.ofNat 0x85 || c == Char.ofNat 0xA0 ||
    c == Char.ofNat 0x1680 ||
    (0x2000 ≤ c.toNat && c.toNat ≤ 0x200A) ||
    c == Char.ofNat 0x2028 || c == Char.ofNat 0x2029 ||
    c == Char.ofNat 0x202F || c == Char.ofNat 0x205F ||
    c == Char.ofNat 0x3000

/-- Python's `str.strip()`: remove leading and trailing whitespace. -/
def pyStrip (s : String) : String :=
  String.mk (((s.data.dropWhile isPyWhitespace).reverse.dropWhile
    isPyWhitespace).reverse)

/-- The `validator("task")` of `ExecuteRequest`: `if not value.strip():`
raise, otherwise return the value unchanged.  A Python string is falsy
exactly when it is empty. -/
def validate_task (value : String) : Except String String :=
  if (pyStrip value).data.isEmpty then
    Except.error "Task description cannot be empty."
  else
    Except.ok value

/-- Pydantic parsing of the request body: apply the field defaults
(`model = "claude"`, `tools = []`) and run the `task` validator. -/
def parseExecuteRequest (raw : RawExecuteRequest) : Except String ExecuteRequest :=
  match validate_task raw.task with
  | Except.error e => Except.error e
  | Except.ok task =>
      Except.ok { task := task
                , model := raw.model.getD "claude"
                , tools := raw.tools.getD [] }

/-- The `result_payload` dict built by the handler (`summary`, `model`,
`tools_used` keys). -/
structure ResultPayload where
  summary : String
  model : String
  tools_used : List String
deriving Repr, DecidableEq

/-- `ExecuteResponse` from `src/server.py`.  Timestamps are clock values. -/
structure ExecuteResponse where
  task : String
  status : String
  mode : String
  message : String
  steps : List Step
  data : ResultPayload
  started_at : Nat
  completed_at : Nat
deriving Repr, DecidableEq

/-- The fixed list of five `Step` records built inside the `try` block of
`execute_task`. -/
def hardcodedSteps : List Step :=
  [ { id := 1, action := "Initializing agent", status := "completed"
    , detail := some "Environment verified." }
  , { id := 2, action := "Analyzing task", status := "completed"
    , detail := some "Task intent classified." }
  , { id := 3, action := "Executing actions", status := "completed"
    , detail := some "Simulated agent actions executed." }
  , { id := 4, action := "Gathering results", status := "completed"
    , detail := some "Compiled structured findings." }
  , { id := 5, action := "Finalizing output", status := "completed"
    , detail := some "Generated completion payload." } ]

/-- The body of the `try` block of `execute_task`: builds the steps, the
result payload, the message and the status.  Every construction is a pure
in-memory record construction, so the computation is total; the
`Except`-typing records that any raised exception would propagate to the
`except` clause of the handler. -/
def tryBlock (request : ExecuteRequest) :
    Except String (List Step × ResultPayload × String × String) :=
  Except.ok
    ( hardcodedSteps
    , { summary := "Task processed successfully in stub backend."
      , model := request.model
      , tools_used := request.tools }
    , "Execution completed without errors."
    , "completed" )

/-- `execute_task` on an already-validated request: read `started_at`,
run the `try` block, read `completed_at`, assemble the response.  The
error case mirrors the `except` clause raising `HTTPException(500, str(exc))`. -/
def execute_task (request : ExecuteRequest) (clk : Nat → Nat) :
    Except String ExecuteResponse :=
  let started_at := clk 0
  match tryBlock request with
  | Except.error exc => Except.error exc
  | Except.ok (steps, result_payload, message, status) =>
      let completed_at := clk 1
      Except.ok
        { task := request.task
        , status := status
        , mode := request.model
        , message := message
        , steps := steps
        , data := result_payload
        , started_at := started_at
        , completed_at := completed_at }

/-- Errors surfaced by the endpoint: a pydantic 422 validation error or
the handler's 500 internal error. -/
inductive ApiError where
  | validationError (detail : String)
  | internalError (detail : String)
deriving Repr, DecidableEq

/-- The full `POST /execute` endpoint: parse and validate the raw body
(failures become a `ValidationError` before the handler runs), then run
`execute_task` (failures of the `try` block become an `InternalError`). -/
def executeEndpoint (raw : RawExecuteRequest) (clk : Nat → Nat) :
    Except ApiError ExecuteResponse :=
  match parseExecuteRequest raw with
  | Except.error e => Except.error (ApiError.validationError e)
  | Except.ok request =>
      match execute_task request clk with
      | Except.error e => Except.error (ApiError.internalError e)
      | Except.ok response => Except.ok response

/-- `true` exactly when the endpoint result is a success envelope. -/
def isOkResult {ε : Type} (r : Except ε ExecuteResponse) : Bool :=
  match r with
  | Except.ok _ => true
  | Except.error _ => false

/-- Every successful response in `r` satisfies the boolean predicate `p`
(an error result satisfies everything vacuously). -/
def okSatisfies {ε : Type} (r : Except ε ExecuteResponse)
    (p : ExecuteResponse → Bool) : Bool :=
  match r with
  | Except.ok resp => p resp
  | Except.error _ => true

/-- `true` exactly when the endpoint result is the 500 internal error. -/
def isInternalError (r : Except ApiError ExecuteResponse) : Bool :=
  match r with
  | Except.error (ApiError.internalError _) => true
  | _ => false

/-- Helper: on a non-blank task the endpoint succeeds and the response is
exactly the envelope assembled from the request and the two clock reads. -/
theorem executeEndpoint_ok (raw : RawExecuteRequest) (clk : Nat → Nat)
    (h : (pyStrip raw.task).data.isEmpty = false) :
    executeEndpoint raw clk = Except.ok
      { task := raw.task
      , status := "completed"
      , mode := raw.model.getD "claude"
      , message := "Execution completed without errors."
      , steps := hardcodedSteps
      , data := { summary := "Task processed successfully in stub backend."
                , model := raw.model.getD "claude"
                , tools_used := raw.tools.getD [] }
      , started_at := clk 0
      , completed_at := clk 1 } := by
  unfold executeEndpoint parseExecuteRequest validate_task execute_task tryBlock
  simp [h]

/-- C1: for every request whose task is non-empty after trimming, the
response's `steps` field contains exactly 5 records with ids 1,2,3,4,5 in
order, with the hardcoded actions, and every record's status is
"completed". -/
theorem steps_fixed_five (raw : RawExecuteRequest) (clk : Nat → Nat)
    (h : (pyStrip raw.task).data.isEmpty = false) :
    isOkResult (executeEndpoint raw clk) = true ∧
    okSatisfies (executeEndpoint raw clk) (fun resp =>
      decide (resp.steps.length = 5) &&
      (resp.steps.map Step.id == [1, 2, 3, 4, 5]) &&
      (resp.steps.map Step.action ==
        [ "Initializing agent", "Analyzing task", "Executing actions"
        , "Gathering results", "Finalizing output" ]) &&
      resp.steps.all (fun s => s.status == "completed")) = true := by
  rw [executeEndpoint_ok raw clk h]
  exact ⟨rfl, rfl⟩

/-- Witness for `steps_fixed_five` at the request with task "hi". -/
theorem steps_fixed_five_witness :
    (pyStrip "hi").data.isEmpty = false ∧
    (isOkResult (executeEndpoint ⟨"hi", none, none⟩ (fun n => n)) = true ∧
     okSatisfies (executeEndpoint ⟨"hi", none, none⟩ (fun n => n)) (fun resp =>
       decide (resp.steps.length = 5) &&
       (resp.steps.map Step.id == [1, 2, 3, 4, 5]) &&
       (resp.steps.map Step.action ==
         [ "Initializing agent", "Analyzing task", "Executing actions"
         , "Gathering results", "Finalizing output" ]) &&
       resp.steps.all (fun s => s.status == "completed")) = true) :=
  ⟨by decide, steps_fixed_five ⟨"hi", none, none⟩ (fun n => n) (by decide)⟩

/-- C2: a task that is empty or only whitespace is rejected with the
validation error before any processing: the endpoint returns the
`ValidationError` and no response envelope is produced. -/
theorem blank_task_rejected (raw : RawExecuteRequest) (clk : Nat → Nat)
    (h : (pyStrip raw.task).data.isEmpty = true) :
    executeEndpoint raw clk =
      Except.error (ApiError.validationError "Task description cannot be empty.") := by
  unfold executeEndpoint parseExecuteRequest validate_task
  simp [h]

/-- Witness for `blank_task_rejected` at the all-whitespace task "   ". -/
theorem blank_task_rejected_witness :
    (pyStrip "   ").data.isEmpty = true ∧
    executeEndpoint ⟨"   ", none, none⟩ (fun n => n) =
      Except.error (ApiError.validationError "Task description cannot be empty.") :=
  ⟨by decide, blank_task_rejected ⟨"   ", none, none⟩ (fun n => n) (by decide)⟩

/-- C3: the response echoes the input: `response.task = request.task` and
`response.mode = request.model` for every validated request. -/
theorem response_echoes_request (request : ExecuteRequest) (clk : Nat → Nat) :
    okSatisfies (execute_task request clk) (fun resp =>
      resp.task == request.task && resp.mode == request.model) = true := by
  simp [execute_task, tryBlock, okSatisfies]

/-- C4: `response.data.tools_used` is the input `tools` list verbatim
(order preserved, no deduplication, empty list included) and
`response.data.model` is the input `model`. -/
theorem data_echoes_tools_and_model (request : ExecuteRequest) (clk : Nat → Nat) :
    okSatisfies (execute_task request clk) (fun resp =>
      resp.data.tools_used == request.tools &&
      resp.data.model == request.model) = true := by
  simp [execute_task, tryBlock, okSatisfies]

/-- C5: an omitted `model` field is parsed as "claude" and echoed into
`mode`; an omitted `tools` field is parsed as the empty list and echoed
into `data.tools_used`. -/
theorem omitted_fields_default (task : String) (model : Option String)
    (tools : Option (List String)) (clk : Nat → Nat)
    (h : (pyStrip task).data.isEmpty = false) :
    parseExecuteRequest ⟨task, none, tools⟩ =
      Except.ok ⟨task, "claude", tools.getD []⟩ ∧
    okSatisfies (executeEndpoint ⟨task, none, tools⟩ clk)
      (fun resp => resp.mode == "claude") = true ∧
    parseExecuteRequest ⟨task, model, none⟩ =
      Except.ok ⟨task, model.getD "claude", []⟩ ∧
    okSatisfies (executeEndpoint ⟨task, model, none⟩ clk)
      (fun resp => resp.data.tools_used == ([] : List String)) = true := by
  refine ⟨?_, ?_, ?_, ?_⟩
  · unfold parseExecuteRequest validate_task
    simp [h]
  · rw [executeEndpoint_ok ⟨task, none, tools⟩ clk h]
    rfl
  · unfold parseExecuteRequest validate_task
    simp [h]
  · rw [executeEndpoint_ok ⟨task, model, none⟩ clk h]
    rfl

/-- Witness for `omitted_fields_default` with task "hi", a present model
"gpt" and present tools ["search"]. -/
theorem omitted_fields_default_witness :
    (pyStrip "hi").data.isEmpty = false ∧
    (parseExecuteRequest ⟨"hi", none, some ["search"]⟩ =
       Except.ok ⟨"hi", "claude", (some ["search"]).getD []⟩ ∧
     okSatisfies (executeEndpoint ⟨"hi", none, some ["search"]⟩ (fun n => n))
       (fun resp => resp.mode == "claude") = true ∧
     parseExecuteRequest ⟨"hi", some "gpt", none⟩ =
       Except.ok ⟨"hi", (some "gpt").getD "claude", []⟩ ∧
     okSatisfies (executeEndpoint ⟨"hi", some "gpt", none⟩ (fun n => n))
       (fun resp => resp.data.tools_used == ([] : List String)) = true) :=
  ⟨by decide,
   omitted_fields_default "hi" (some "gpt") (some ["search"]) (fun n => n) (by decide)⟩

/-- C6: determinism apart from timestamps: two invocations of the endpoint
with the same raw request and arbitrary clocks agree on `steps`,
`message`, `data` and `status`. -/
theorem deterministic_up_to_timestamps (raw : RawExecuteRequest)
    (clk1 clk2 : Nat → Nat) :
    (executeEndpoint raw clk1).map ExecuteResponse.steps =
      (executeEndpoint raw clk2).map ExecuteResponse.steps ∧
    (executeEndpoint raw clk1).map ExecuteResponse.message =
      (executeEndpoint raw clk2).map ExecuteResponse.message ∧
    (executeEndpoint raw clk1).map ExecuteResponse.data =
      (executeEndpoint raw clk2).map ExecuteResponse.data ∧
    (executeEndpoint raw clk1).map ExecuteResponse.status =
      (executeEndpoint raw clk2).map ExecuteResponse.status := by
  unfold executeEndpoint execute_task tryBlock
  cases parseExecuteRequest raw <;> simp [Except.map]

/-- C7: for every successful response, `completed_at ≥ started_at`,
given that the two successive wall-clock reads are non-decreasing. -/
theorem completed_not_before_started (raw : RawExecuteRequest)
    (clk : Nat → Nat) (hclk : clk 0 ≤ clk 1) :
    okSatisfies (executeEndpoint raw clk) (fun resp =>
      decide (resp.started_at ≤ resp.completed_at)) = true := by
  unfold executeEndpoint parseExecuteRequest validate_task execute_task tryBlock
  cases hblank : (pyStrip raw.task).data.isEmpty <;>
    simp [okSatisfies, hblank, hclk]

/-- Witness for `completed_not_before_started` with the identity clock. -/
theorem completed_not_before_started_witness :
    (fun n => n) 0 ≤ (fun n => n) 1 ∧
    okSatisfies (executeEndpoint ⟨"hi", none, none⟩ (fun n => n)) (fun resp =>
      decide (resp.started_at ≤ resp.completed_at)) = true :=
  ⟨by decide, completed_not_before_started ⟨"hi", none, none⟩ (fun n => n) (by decide)⟩

/-- C8: the `InternalError` branch is unreachable: no request, validated
or not, makes the endpoint produce the 500 internal error, because the
`try` block only performs total in-memory constructions. -/
theorem internal_error_unreachable (raw : RawExecuteRequest) (clk : Nat → Nat) :
    isInternalError (executeEndpoint raw clk) = false := by
  unfold executeEndpoint parseExecuteRequest validate_task execute_task tryBlock
  cases hblank : (pyStrip raw.task).data.isEmpty <;>
    simp [isInternalError, hblank]

/-- C9: validation never mutates the task: on a non-blank task the
validator returns the original string unchanged, and the response's
`task` field preserves leading and trailing whitespace verbatim. -/
theorem task_echoed_verbatim (raw : RawExecuteRequest) (clk : Nat → Nat)
    (h : (pyStrip raw.task).data.isEmpty = false) :
    validate_task raw.task = Except.ok raw.task ∧
    okSatisfies (executeEndpoint raw clk)
      (fun resp => resp.task == raw.task) = true := by
  constructor
  · unfold validate_task
    simp [h]
  · rw [executeEndpoint_ok raw clk h]
    simp [okSatisfies]

/-- Witness for `task_echoed_verbatim` at task "  hi  ", whose
surrounding whitespace must survive into the response. -/
theorem task_echoed_verbatim_witness :
    (pyStrip "  hi  ").data.isEmpty = false ∧
    (validate_task "  hi  " = Except.ok "  hi  " ∧
     okSatisfies (executeEndpoint ⟨"  hi  ", none, none⟩ (fun n => n))
       (fun resp => resp.task == "  hi  ") = true) :=
  ⟨by decide, task_echoed_verbatim ⟨"  hi  ", none, none⟩ (fun n => n) (by decide)⟩

/-- C10: `model` and `tools` undergo no semantic validation: any model
string (the empty string included) and any tools list (duplicates and
empty entries included) are accepted whenever the task is non-blank, and
are echoed unchanged into `mode` and `data.tools_used`. -/
theorem model_tools_unvalidated (task model : String) (tools : List String)
    (clk : Nat → Nat) (h : (pyStrip task).data.isEmpty = false) :
    isOkResult (executeEndpoint ⟨task, some model, some tools⟩ clk) = true ∧
    okSatisfies (executeEndpoint ⟨task, some model, some tools⟩ clk)
      (fun resp => resp.mode == model &&
        resp.data.tools_used == tools) = true := by
  rw [executeEndpoint_ok ⟨task, some model, some tools⟩ clk h]
  exact ⟨rfl, by simp [okSatisfies]⟩

/-- Witness for `model_tools_unvalidated` with the empty model string and
a tools list containing a duplicate and an empty entry. -/
theorem model_tools_unvalidated_witness :
    (pyStrip "hi").data.isEmpty = false ∧
    (isOkResult (executeEndpoint ⟨"hi", some "", some ["search", "search", ""]⟩
       (fun n => n)) = true ∧
     okSatisfies (executeEndpoint ⟨"hi", some "", some ["search", "search", ""]⟩
       (fun n => n)) (fun resp => resp.mode == "" &&
         resp.data.tools_used == ["search", "search", ""]) = true) :=
  ⟨by decide,
   model_tools_unvalidated "hi" "" ["search", "search", ""] (fun n => n) (by decide)⟩

end Forge
